import Mathlib

/-!
Verification of the copilot-api gateway (python port).

This file gives a shallow embedding of the protocol-translation layer,
the admission gate, the token refresher and the streaming relay of the
repository, and proves or refutes the frozen claims about them.

Conventions of the embedding:
* Python dictionaries coming from JSON are embedded as structures whose
  fields are `Option`-valued when the corresponding key may be absent
  (`none` models a missing key).
* A Python function that can raise is embedded as a function into
  `Option`/`Except` (`none` / `.error` models the raised exception).
* Wire lines are embedded as `List Char` (the character sequence of the
  line); `str.startswith` becomes `List.isPrefixOf` and slicing `[6:]`
  becomes `List.drop 6`.
* `time.time()` values and second counts are embedded as `Int`.
-/

/-! ## Data model of the OpenAI-shaped upstream response
    (fields read by `routes/messages.py:convert_openai_to_anthropic`) -/

/-- Usage object of an upstream response: the `prompt_tokens` and
`completion_tokens` keys, each possibly absent. -/
structure OAUsage where
  prompt_tokens : Option Nat
  completion_tokens : Option Nat
deriving DecidableEq, Repr

/-- The `message` object of a completion choice; the `content` key may be
absent (`.get("content", "")` in the source). -/
structure OAMessage where
  content : Option String
deriving DecidableEq, Repr

/-- One element of the `choices` array.  The `message` key may be absent
(streaming delta chunks carry `delta`, not `message`); `finish_reason`
may be absent or null. -/
structure OAChoice where
  message : Option OAMessage
  finish_reason : Option String
deriving DecidableEq, Repr

/-- An upstream response or streaming chunk as read by
`convert_openai_to_anthropic`: `choices = none` models a JSON object
without a `choices` key. -/
structure OpenAIResponse where
  id : Option String
  model : Option String
  choices : Option (List OAChoice)
  usage : Option OAUsage
deriving DecidableEq, Repr

/-- Anthropic-shaped usage object produced by the conversion. -/
structure AnthropicUsage where
  input_tokens : Nat
  output_tokens : Nat
deriving DecidableEq, Repr

/-- Anthropic-shaped non-streaming response produced by the conversion;
`content_text` is the `text` field of the single `{"type":"text"}`
content block the source builds. -/
structure AnthropicResponse where
  id : Option String
  role : String
  content_text : String
  model : Option String
  stop_reason : String
  usage : AnthropicUsage
deriving DecidableEq, Repr

/-- Result of `convert_openai_to_anthropic`: a reshaped Anthropic
response (the `"choices" in openai_response` branch) or the input passed
through unchanged (the `else` branch for streaming chunks). -/
inductive ConvResult where
  | converted (a : AnthropicResponse)
  | passthrough (r : OpenAIResponse)
deriving DecidableEq, Repr

/-- Embedding of `routes/messages.py:convert_openai_to_anthropic`.
`none` models a raised exception: `choices[0]` on an empty array
(IndexError) or `choice["message"]` when the key is absent (KeyError). -/
def convert_openai_to_anthropic (r : OpenAIResponse) : Option ConvResult :=
  match r.choices with
  | some choices =>
    match choices with
    | [] => none
    | choice :: _ =>
      match choice.message with
      | none => none
      | some message =>
        some (ConvResult.converted
          { id := r.id
            role := "assistant"
            content_text := message.content.getD ""
            model := r.model
            stop_reason :=
              if choice.finish_reason = some "stop" then "end_turn" else "max_tokens"
            usage :=
              { input_tokens :=
                  match r.usage with
                  | some u => u.prompt_tokens.getD 0
                  | none => 0
                output_tokens :=
                  match r.usage with
                  | some u => u.completion_tokens.getD 0
                  | none => 0 } })
  | none => some (ConvResult.passthrough r)

/-! ## Data model of the Anthropic-shaped request
    (fields read by `routes/messages.py:convert_anthropic_to_openai`) -/

/-- Message content: either a plain string or a list of typed parts
(each part embedded as its `type` together with its optional `text`);
the conversion passes content through untouched. -/
inductive MsgContent where
  | str (s : String)
  | parts (ps : List (String × Option String))
deriving DecidableEq, Repr

/-- One message of an Anthropic request. -/
structure AnthropicMessage where
  role : String
  content : MsgContent
deriving DecidableEq, Repr

/-- The Anthropic request fields the conversion reads (`system = none`
models an absent field). -/
structure AnthropicRequest where
  model : String
  max_tokens : Int
  messages : List AnthropicMessage
  stream : Option Bool
  system : Option String
deriving DecidableEq, Repr

/-- A message of the upstream-native (OpenAI-shaped) payload. -/
structure Message where
  role : String
  content : MsgContent
deriving DecidableEq, Repr

/-- The upstream-native payload fields the conversion writes. -/
structure ChatCompletionsPayload where
  model : String
  messages : List Message
  max_tokens : Option Int
  stream : Option Bool
deriving DecidableEq, Repr

/-- Role mapping applied to each incoming Anthropic message
(`if role == "human": role = "user" elif role == "assistant": ...`). -/
def map_anthropic_role (role : String) : String :=
  if role = "human" then "user"
  else if role = "assistant" then "assistant"
  else role

/-- Embedding of `routes/messages.py:convert_anthropic_to_openai`.
The `if anthropic_request.system:` guard is Python truthiness: an absent
system field and an empty-string system field both skip the prepended
system message. -/
def convert_anthropic_to_openai (req : AnthropicRequest) : ChatCompletionsPayload :=
  let system_messages : List Message :=
    match req.system with
    | some s => if s ≠ "" then [⟨"system", MsgContent.str s⟩] else []
    | none => []
  { model := req.model
    messages :=
      system_messages ++ req.messages.map (fun m => ⟨map_anthropic_role m.role, m.content⟩)
    max_tokens := some req.max_tokens
    stream := req.stream }

/-! ## Admission gate: rate limiting (`lib/rate_limit.py`) -/

/-- The rate-limit related fields of the shared `State` object. -/
structure RLState where
  rate_limit_seconds : Option Int
  rate_limit_wait : Bool
  last_request_timestamp : Option Int
deriving DecidableEq, Repr

/-- Outcome of one `check_rate_limit` call: the request is admitted at
some instant (after an `asyncio.sleep` in wait mode), or a
`RateLimitError` reporting the remaining wait time is raised. -/
inductive RLOutcome where
  | admitted (admit_time : Int)
  | rejected (wait_time : Int)
deriving DecidableEq, Repr

/-- Embedding of `lib/rate_limit.py:check_rate_limit`, called with the
value `current_time` observed from `time.time()`.  Returns the outcome
and the state after the call.  Faithful details: with no configured
interval the function returns early and does not touch the timestamp;
in wait mode the caller sleeps `wait_time` (so is admitted at
`current_time + wait_time`) but the timestamp stored afterwards is the
pre-sleep `current_time`; a raised `RateLimitError` skips the timestamp
update. -/
def check_rate_limit (s : RLState) (current_time : Int) : RLOutcome × RLState :=
  match s.rate_limit_seconds with
  | none => (RLOutcome.admitted current_time, s)
  | some limit =>
    match s.last_request_timestamp with
    | some last =>
      let time_since_last := current_time - last
      if time_since_last < limit then
        let wait_time := limit - time_since_last
        if s.rate_limit_wait then
          (RLOutcome.admitted (current_time + wait_time),
            { s with last_request_timestamp := some current_time })
        else
          (RLOutcome.rejected wait_time, s)
      else
        (RLOutcome.admitted current_time,
          { s with last_request_timestamp := some current_time })
    | none =>
      (RLOutcome.admitted current_time,
        { s with last_request_timestamp := some current_time })

/-- Sequential trace of the gate: one `check_rate_limit` call per
element of `times` (the `time.time()` value observed at each call),
threading the shared state. -/
def run_rate_limit (s : RLState) : List Int → List RLOutcome
  | [] => []
  | t :: ts =>
    let r := check_rate_limit s t
    r.1 :: run_rate_limit r.2 ts

/-- The admission instants of a trace, in order. -/
def admitted_times (outs : List RLOutcome) : List Int :=
  outs.filterMap fun o =>
    match o with
    | RLOutcome.admitted t => some t
    | RLOutcome.rejected _ => none

/-! ## Credential refresher (`lib/token.py:setup_copilot_token`) -/

/-- Result of one token exchange (`get_copilot_token`): the new session
token and its `refresh_in` seconds value. -/
structure TokenData where
  token : String
  refresh_in : Int
deriving DecidableEq, Repr

/-- Observable run of the background refresh loop, given the results of
the successive `get_copilot_token` calls it makes. -/
structure RefreshRun where
  /-- Per successful cycle: the sleep duration preceding that cycle's
  exchange and the token stored afterwards. -/
  cycles : List (Int × String)
  /-- `.error e` when the loop died surfacing exception `e`. -/
  outcome : Except String Unit
  /-- The session token held in the store when the run ends. -/
  stored : String
deriving Repr

/-- Embedding of the `refresh_token` inner loop of
`lib/token.py:setup_copilot_token`.  `refresh_interval` is the closure
variable computed once before the loop starts and never reassigned; each
iteration sleeps `refresh_interval`, performs the next exchange from
`fetches`, stores the new token on success, and re-raises (ending the
loop) on failure, leaving the stored token untouched. -/
def refresh_loop (refresh_interval : Int) (stored : String) :
    List (Except String TokenData) → RefreshRun
  | [] => ⟨[], Except.ok (), stored⟩
  | Except.ok td :: rest =>
    let r := refresh_loop refresh_interval td.token rest
    ⟨(refresh_interval, td.token) :: r.cycles, r.outcome, r.stored⟩
  | Except.error e :: _ => ⟨[], Except.error e, stored⟩

/-- Observable run of `setup_copilot_token`: the initial exchange result
and the background loop's exchanges. -/
structure SetupRun where
  initial_token : String
  run : RefreshRun
deriving Repr

/-- Embedding of `lib/token.py:setup_copilot_token`: stores the initial
token, computes `refresh_interval = refresh_in - 60` from the initial
exchange only, and starts the refresh loop with that fixed interval. -/
def setup_copilot_token (initial : TokenData)
    (fetches : List (Except String TokenData)) : SetupRun :=
  { initial_token := initial.token
    run := refresh_loop (initial.refresh_in - 60) initial.token fetches }

/-- Modelled from the spec: the spec's refresh schedule
("reschedules using the new `refresh_in`") — each cycle sleeps
`current refresh_in − 60` where `current` is the `refresh_in` returned
by the most recent exchange.  Used only to compare against the code's
schedule; only successful exchanges are relevant to the schedule. -/
def refresh_loop_spec (current_refresh_in : Int) : List TokenData → List (Int × String)
  | [] => []
  | td :: rest => (current_refresh_in - 60, td.token) :: refresh_loop_spec td.refresh_in rest

/-! ## Default output-token ceiling (`routes/chat_completions.py`) -/

/-- One entry of the cached model list.  `max_output_tokens = none`
models an entry whose `capabilities.limits` object lacks the
`max_output_tokens` key. -/
structure ModelEntry where
  id : String
  max_output_tokens : Option Int
deriving DecidableEq, Repr

/-- Embedding of the default-`max_tokens` block of
`routes/chat_completions.py:handle_completion` (lines 31–39).
`models = none` models a falsy `state.models`.  `.error ()` models the
KeyError raised by
`selected_model["capabilities"]["limits"]["max_output_tokens"]` when the
matched descriptor lacks the key; `.ok v` is the value `payload.max_tokens`
holds after the block. -/
def set_default_max_tokens (payload_max_tokens : Option Int) (payload_model : String)
    (models : Option (List ModelEntry)) : Except Unit (Option Int) :=
  match payload_max_tokens, models with
  | none, some data =>
    match data.find? (fun m => m.id == payload_model) with
    | some selected_model =>
      match selected_model.max_output_tokens with
      | some v => Except.ok (some v)
      | none => Except.error ()
    | none => Except.ok none
  | pmt, _ => Except.ok pmt

/-! ## Embeddings endpoint error handling (`routes/embeddings.py`) -/

/-- An exception reaching the `except Exception` handler of
`handle_embeddings`: an `HTTPError` carrying the upstream status, the
exception's string form and the upstream body if reading it succeeds
(`none` models `error.response.aread()` itself failing), or any other
exception with its string form. -/
inductive HandlerError where
  | http (status : Nat) (str_form : String) (body_read : Option String)
  | other (str_form : String)
deriving DecidableEq, Repr

/-- The JSON error response built by `forward_error`: HTTP status code
plus the `{"error": {"message", "type"}}` body fields. -/
structure ErrorResponse where
  status : Nat
  message : String
  error_type : String
deriving DecidableEq, Repr

/-- Embedding of `routes/embeddings.py:forward_error`: an `HTTPError`
whose body is readable keeps the upstream status code and uses the raw
body text as message; a failed body read falls back to status 500 with
`str(error)`; every other exception maps to status 500 with
`str(error)`.  The `type` field is always the literal `"error"`. -/
def forward_error : HandlerError → ErrorResponse
  | HandlerError.http status _ (some body_text) => ⟨status, body_text, "error"⟩
  | HandlerError.http _ str_form none => ⟨500, str_form, "error"⟩
  | HandlerError.other str_form => ⟨500, str_form, "error"⟩

/-- What `handle_embeddings` returns to the transport. -/
inductive EmbeddingsResult (α : Type) where
  | success (value : α)
  | error_response (e : ErrorResponse)
deriving DecidableEq, Repr

/-- Embedding of `routes/embeddings.py:handle_embeddings`: the whole
body runs under `try`, and any exception is turned into
`forward_error`'s JSON response instead of propagating.  `body` is the
outcome of running the guarded body (rate limit, approval, upstream
call). -/
def handle_embeddings {α : Type} (body : Except HandlerError α) : EmbeddingsResult α :=
  match body with
  | Except.ok v => EmbeddingsResult.success v
  | Except.error e => EmbeddingsResult.error_response (forward_error e)

/-! ## Streaming relay
    (`services/copilot/create_chat_completions.py:_stream_response` and
    the `generate` wrappers of `routes/chat_completions.py` and
    `routes/messages.py`) -/

/-- A wire line, embedded as its character sequence. -/
abbrev Line := List Char

/-- The `"data: "` tag stripped by the relay. -/
def sse_data_tag : Line := "data: ".data

/-- The `"[DONE]"` sentinel payload. -/
def done_sentinel : Line := "[DONE]".data

/-- The characters `"\n\n"` appended to every consumer frame. -/
def frame_sep : Line := "\n\n".data

/-- How the upstream line iteration (`response.aiter_lines()`) ends when
no `[DONE]` sentinel stops it first: the iterator is exhausted cleanly,
or iterating raises (connection interrupted). -/
inductive UpstreamEnd where
  | eof
  | io_error
deriving DecidableEq, Repr

/-- Embedding of
`services/copilot/create_chat_completions.py:_stream_response`,
parameterised by the JSON decoder `parse` (`json.loads`; `none` models a
`json.JSONDecodeError`, which the source logs and skips).  Returns the
events yielded, paired with `true` when the generator ends by raising
(the upstream iteration raised after the listed lines) and `false` when
it completes normally (`break` on `[DONE]`, or clean exhaustion). -/
def stream_response {J : Type} (parse : Line → Option J) :
    List Line → UpstreamEnd → List J × Bool
  | [], ending => ([], ending = UpstreamEnd.io_error)
  | line :: rest, ending =>
    if sse_data_tag.isPrefixOf line then
      let data := line.drop 6
      if data = done_sentinel then ([], false)
      else
        match parse data with
        | some j =>
          let r := stream_response parse rest ending
          (j :: r.1, r.2)
        | none => stream_response parse rest ending
    else stream_response parse rest ending

/-- Embedding of the `generate` wrapper of
`routes/chat_completions.py:handle_completion`, composed with
`_stream_response`, parameterised by the JSON encoder `encode`
(`json.dumps`).  Each inner event is re-framed as
`"data: " ++ json ++ "\n\n"`; when the inner generator completes
normally one `"data: [DONE]\n\n"` terminal frame follows; when it raises
nothing follows and the exception propagates (second component `true`). -/
def handle_completion_stream {J : Type} (parse : Line → Option J) (encode : J → Line)
    (lines : List Line) (ending : UpstreamEnd) : List Line × Bool :=
  let r := stream_response parse lines ending
  (r.1.map (fun j => sse_data_tag ++ encode j ++ frame_sep) ++
    (if r.2 then [] else [sse_data_tag ++ done_sentinel ++ frame_sep]),
   r.2)

/-- Embedding of the `generate` wrapper of
`routes/messages.py:handle_messages`, which runs each upstream chunk
through `convert_openai_to_anthropic` before framing it.  `encode` is
the JSON encoder for the converted chunk; a conversion that raises
(`none`) aborts the stream with the exception propagating, so no
terminal frame is emitted.  `raised` tells whether the upstream chunk
iteration itself ends by raising after the listed chunks. -/
def handle_messages_stream (encode : ConvResult → Line)
    (chunks : List OpenAIResponse) (raised : Bool) : List Line × Bool :=
  match chunks with
  | [] => if raised then ([], true) else ([sse_data_tag ++ done_sentinel ++ frame_sep], false)
  | c :: rest =>
    match convert_openai_to_anthropic c with
    | none => ([], true)
    | some converted =>
      let r := handle_messages_stream encode rest raised
      ((sse_data_tag ++ encode converted ++ frame_sep) :: r.1, r.2)

/-! ## Observers used to state the claims -/

/-- The `stop_reason` of a conversion result when it took the
non-streaming (reshaping) branch. -/
def conv_stop_reason : Option ConvResult → Option String
  | some (ConvResult.converted a) => some a.stop_reason
  | _ => none

/-- The `input_tokens` of a conversion result when it took the
non-streaming (reshaping) branch. -/
def conv_input_tokens : Option ConvResult → Option Nat
  | some (ConvResult.converted a) => some a.usage.input_tokens
  | _ => none

/-- The `output_tokens` of a conversion result when it took the
non-streaming (reshaping) branch. -/
def conv_output_tokens : Option ConvResult → Option Nat
  | some (ConvResult.converted a) => some a.usage.output_tokens
  | _ => none

/-! ## Claim C1 -/

/-- C1: for every non-streaming upstream response (a `choices` array
with a first choice carrying a `message`, and a `usage` object), the
Anthropic-shaped `stop_reason` is `end_turn` iff the first choice's
`finish_reason` is `"stop"`, `max_tokens` for every other finish reason,
and usage is renamed `prompt_tokens → input_tokens`,
`completion_tokens → output_tokens`. -/
theorem anthropic_nonstreaming_conversion (r : OpenAIResponse) (c : OAChoice)
    (cs : List OAChoice) (m : OAMessage) (u : OAUsage)
    (hc : r.choices = some (c :: cs)) (hm : c.message = some m) (hu : r.usage = some u) :
    (conv_stop_reason (convert_openai_to_anthropic r) = some "end_turn" ↔
      c.finish_reason = some "stop") ∧
    (c.finish_reason ≠ some "stop" →
      conv_stop_reason (convert_openai_to_anthropic r) = some "max_tokens") ∧
    conv_input_tokens (convert_openai_to_anthropic r) = some (u.prompt_tokens.getD 0) ∧
    conv_output_tokens (convert_openai_to_anthropic r) = some (u.completion_tokens.getD 0) := by
  have hconv : convert_openai_to_anthropic r = some (ConvResult.converted
      { id := r.id
        role := "assistant"
        content_text := m.content.getD ""
        model := r.model
        stop_reason := if c.finish_reason = some "stop" then "end_turn" else "max_tokens"
        usage := { input_tokens := u.prompt_tokens.getD 0
                   output_tokens := u.completion_tokens.getD 0 } }) := by
    simp [convert_openai_to_anthropic, hc, hm, hu]
  refine ⟨?_, ?_, ?_, ?_⟩
  · rw [hconv]
    by_cases hf : c.finish_reason = some "stop" <;> simp [conv_stop_reason, hf]
  · intro hf
    rw [hconv]
    simp [conv_stop_reason, hf]
  · rw [hconv]; rfl
  · rw [hconv]; rfl

/-- C1 witness: the theorem applied to a concrete response whose first
choice finished with `"length"` and whose usage is
`prompt_tokens = 5`, `completion_tokens = 7`. -/
theorem anthropic_nonstreaming_conversion_witness :
    conv_stop_reason (convert_openai_to_anthropic
      ⟨some "id1", some "gpt-4", some [⟨some ⟨some "hello"⟩, some "length"⟩],
        some ⟨some 5, some 7⟩⟩) = some "max_tokens" ∧
    conv_input_tokens (convert_openai_to_anthropic
      ⟨some "id1", some "gpt-4", some [⟨some ⟨some "hello"⟩, some "length"⟩],
        some ⟨some 5, some 7⟩⟩) = some 5 ∧
    conv_output_tokens (convert_openai_to_anthropic
      ⟨some "id1", some "gpt-4", some [⟨some ⟨some "hello"⟩, some "length"⟩],
        some ⟨some 5, some 7⟩⟩) = some 7 := by
  have h := anthropic_nonstreaming_conversion
    ⟨some "id1", some "gpt-4", some [⟨some ⟨some "hello"⟩, some "length"⟩],
      some ⟨some 5, some 7⟩⟩
    ⟨some ⟨some "hello"⟩, some "length"⟩ [] ⟨some "hello"⟩ ⟨some 5, some 7⟩ rfl rfl rfl
  exact ⟨h.2.1 (by decide), h.2.2.1, h.2.2.2⟩

/-! ## Claim C5 -/

/-- C5 counterexample: a system field that is provided but equal to the
empty string is dropped by the Python truthiness guard, so the converted
message list does not start with a system message as the claim requires
for every provided system field. -/
theorem anthropic_empty_system_dropped :
    (convert_anthropic_to_openai
        ⟨"claude-3", 16, [⟨"human", MsgContent.str "hi"⟩], none, some ""⟩).messages ≠
      [⟨"system", MsgContent.str ""⟩, ⟨"user", MsgContent.str "hi"⟩] ∧
    (convert_anthropic_to_openai
        ⟨"claude-3", 16, [⟨"human", MsgContent.str "hi"⟩], none, some ""⟩).messages =
      [⟨"user", MsgContent.str "hi"⟩] := by
  decide

/-- C5 (amended): for every Anthropic request whose system field is
provided and non-empty, the converted message list is the system message
followed by the original messages in order with `human` mapped to `user`
and every other role preserved. -/
theorem convert_anthropic_request_shape (req : AnthropicRequest) (s : String)
    (hs : req.system = some s) (hne : s ≠ "") :
    (convert_anthropic_to_openai req).messages =
      ⟨"system", MsgContent.str s⟩ ::
        req.messages.map (fun m => ⟨map_anthropic_role m.role, m.content⟩) ∧
    map_anthropic_role "human" = "user" ∧
    (∀ r, r ≠ "human" → map_anthropic_role r = r) := by
  refine ⟨?_, rfl, ?_⟩
  · simp [convert_anthropic_to_openai, hs, hne]
  · intro r hr
    by_cases ha : r = "assistant"
    · subst ha; rfl
    · simp [map_anthropic_role, hr, ha]

/-- C5 witness: the theorem applied to the claim's concrete request
(`system = "S"`, one human message `"hi"`), giving the claim's expected
round-trip output, plus a non-human role preserved verbatim. -/
theorem convert_anthropic_request_shape_witness :
    (convert_anthropic_to_openai
        ⟨"claude-3", 16, [⟨"human", MsgContent.str "hi"⟩], none, some "S"⟩).messages =
      [⟨"system", MsgContent.str "S"⟩, ⟨"user", MsgContent.str "hi"⟩] ∧
    map_anthropic_role "tool" = "tool" := by
  have h := convert_anthropic_request_shape
    ⟨"claude-3", 16, [⟨"human", MsgContent.str "hi"⟩], none, some "S"⟩ "S" rfl (by decide)
  refine ⟨?_, h.2.2 "tool" (by decide)⟩
  rw [h.1]; rfl

/-! ## Claim C10 -/

/-- C10: the embeddings endpoint turns every exception into a JSON
error response instead of propagating it; the body always has shape
`{"error": {"message", "type"}}` with `type = "error"`, the status is
the upstream response status for an `HTTPError` whose body could be
read, and 500 otherwise; a successful body is returned as-is. -/
theorem embeddings_error_handling {α : Type} (e : HandlerError) (v : α) :
    handle_embeddings (Except.error e)
        = EmbeddingsResult.error_response (α := α) (forward_error e) ∧
    handle_embeddings (Except.ok v) = EmbeddingsResult.success v ∧
    (forward_error e).error_type = "error" ∧
    ((forward_error e).status =
      match e with
      | HandlerError.http status _ (some _) => status
      | HandlerError.http _ _ none => 500
      | HandlerError.other _ => 500) := by
  refine ⟨rfl, rfl, ?_, ?_⟩
  · cases e with
    | http st sf b => cases b <;> rfl
    | other sf => rfl
  · cases e with
    | http st sf b => cases b <;> rfl
    | other sf => rfl

/-! ## Claim C2 -/

/-- Whether every adjacent pair of a list of admission instants is at
least `i` apart (the spacing property the claim asserts of all admitted
requests). -/
def gaps_ok (i : Int) : List Int → Bool
  | a :: b :: rest => (a + i ≤ b) && gaps_ok i (b :: rest)
  | _ => true

/-- C2 counterexample: with interval 10 in wait mode and check times
0, 5, 15, the gate admits at 0, 10 and 15 — the last two admissions are
only 5 apart and the third was not delayed at all, because the stored
timestamp after a waited admission is the pre-sleep check time, not the
admission time. -/
theorem rate_limit_wait_mode_close_admissions :
    admitted_times (run_rate_limit ⟨some 10, true, none⟩ [0, 5, 15]) = [0, 10, 15] ∧
    gaps_ok 10 (admitted_times (run_rate_limit ⟨some 10, true, none⟩ [0, 5, 15])) = false := by
  decide

/-- C2 (amended): with a minimum interval configured, a rejected request
leaves the rate-limit state (and so the stored timestamp) unchanged, and
an admitted request is admitted no earlier than the previously stored
timestamp plus the interval — but the timestamp then stored is the check
time, not the (possibly later) admission time, so consecutive admissions
can be closer than the interval in wait mode. -/
theorem rate_limit_gate_behaviour (s : RLState) (t limit : Int)
    (hl : s.rate_limit_seconds = some limit) :
    (∀ w, (check_rate_limit s t).1 = RLOutcome.rejected w → (check_rate_limit s t).2 = s) ∧
    (∀ t', (check_rate_limit s t).1 = RLOutcome.admitted t' →
      (check_rate_limit s t).2.last_request_timestamp = some t ∧
      ∀ last, s.last_request_timestamp = some last → last + limit ≤ t') := by
  constructor
  · intro w hw
    cases hlast : s.last_request_timestamp with
    | none =>
      have hc : check_rate_limit s t =
          (RLOutcome.admitted t, { s with last_request_timestamp := some t }) := by
        simp [check_rate_limit, hl, hlast]
      rw [hc] at hw
      exact absurd hw (by simp)
    | some last =>
      by_cases hlt : t - last < limit
      · by_cases hwait : s.rate_limit_wait
        · have hc : check_rate_limit s t =
              (RLOutcome.admitted (t + (limit - (t - last))),
                { s with last_request_timestamp := some t }) := by
            simp [check_rate_limit, hl, hlast, hlt, hwait]
          rw [hc] at hw
          exact absurd hw (by simp)
        · have hc : check_rate_limit s t =
              (RLOutcome.rejected (limit - (t - last)), s) := by
            simp [check_rate_limit, hl, hlast, hlt, hwait]
          rw [hc]
      · have hc : check_rate_limit s t =
            (RLOutcome.admitted t, { s with last_request_timestamp := some t }) := by
          simp [check_rate_limit, hl, hlast, hlt]
        rw [hc] at hw
        exact absurd hw (by simp)
  · intro t' ht'
    cases hlast : s.last_request_timestamp with
    | none =>
      have hc : check_rate_limit s t =
          (RLOutcome.admitted t, { s with last_request_timestamp := some t }) := by
        simp [check_rate_limit, hl, hlast]
      refine ⟨by rw [hc], ?_⟩
      intro l hl'
      exact absurd hl' (by simp)
    | some last =>
      by_cases hlt : t - last < limit
      · by_cases hwait : s.rate_limit_wait
        · have hc : check_rate_limit s t =
              (RLOutcome.admitted (t + (limit - (t - last))),
                { s with last_request_timestamp := some t }) := by
            simp [check_rate_limit, hl, hlast, hlt, hwait]
          rw [hc] at ht'
          have ht2 : t + (limit - (t - last)) = t' := by injection ht'
          refine ⟨by rw [hc], ?_⟩
          intro l hl'
          have hll : last = l := by injection hl'
          omega
        · have hc : check_rate_limit s t =
              (RLOutcome.rejected (limit - (t - last)), s) := by
            simp [check_rate_limit, hl, hlast, hlt, hwait]
          rw [hc] at ht'
          exact absurd ht' (by simp)
      · have hc : check_rate_limit s t =
            (RLOutcome.admitted t, { s with last_request_timestamp := some t }) := by
          simp [check_rate_limit, hl, hlast, hlt]
        rw [hc] at ht'
        have ht2 : t = t' := by injection ht'
        refine ⟨by rw [hc], ?_⟩
        intro l hl'
        have hll : last = l := by injection hl'
        omega

/-- C2 witness: the amended theorem applied concretely — a rejection at
interval 10, previous timestamp 100, check time 105 leaves the state
unchanged, and a waited admission at the same instant lands at 110 with
timestamp 105 stored. -/
theorem rate_limit_gate_behaviour_witness :
    (check_rate_limit ⟨some 10, false, some 100⟩ 105).2 = ⟨some 10, false, some 100⟩ ∧
    (check_rate_limit ⟨some 10, true, some 100⟩ 105).2.last_request_timestamp = some 105 ∧
    (100 : Int) + 10 ≤ 110 := by
  have h1 := rate_limit_gate_behaviour ⟨some 10, false, some 100⟩ 105 10 rfl
  have h2 := rate_limit_gate_behaviour ⟨some 10, true, some 100⟩ 105 10 rfl
  have ha := h2.2 110 (by decide)
  exact ⟨h1.1 5 (by decide), ha.1, ha.2 100 rfl⟩

/-! ## Claim C4 -/

/-- C4 counterexample: with an initial `refresh_in` of 120 and later
exchanges returning `refresh_in` 1000 and 900, the code sleeps the fixed
initial 60 seconds before every exchange, whereas rescheduling from the
most recent exchange would sleep 940 before the second refresh. -/
theorem refresh_reschedule_fixed_interval :
    (setup_copilot_token ⟨"tok0", 120⟩
        [Except.ok ⟨"tok1", 1000⟩, Except.ok ⟨"tok2", 900⟩]).run.cycles =
      [(60, "tok1"), (60, "tok2")] ∧
    refresh_loop_spec 120 [⟨"tok1", 1000⟩, ⟨"tok2", 900⟩] =
      [(60, "tok1"), (940, "tok2")] ∧
    (setup_copilot_token ⟨"tok0", 120⟩
        [Except.ok ⟨"tok1", 1000⟩, Except.ok ⟨"tok2", 900⟩]).run.cycles ≠
      refresh_loop_spec 120 [⟨"tok1", 1000⟩, ⟨"tok2", 900⟩] := by
  decide

/-- Closed form of the refresh loop on a run of successful exchanges:
the sleep interval of every cycle is the loop's fixed interval and each
cycle stores the newest token. -/
theorem refresh_loop_cycles_closed (i : Int) (stored : String) (results : List TokenData) :
    (refresh_loop i stored (results.map Except.ok)).cycles =
      results.map (fun td => (i, td.token)) := by
  induction results generalizing stored with
  | nil => rfl
  | cons td rest ih => simp [refresh_loop, ih]

/-- C4 (amended): every refresh cycle sleeps `refresh_in − 60` seconds
computed from the INITIAL exchange only (so with `refresh_in = 120`
every exchange fires 60 seconds after the previous one) and replaces the
stored token with the newest exchange's token; the schedule is never
recomputed from a later exchange's `refresh_in`. -/
theorem refresh_schedule_uses_initial_interval (initial : TokenData)
    (results : List TokenData) :
    (setup_copilot_token initial (results.map Except.ok)).run.cycles =
      results.map (fun td => (initial.refresh_in - 60, td.token)) ∧
    (setup_copilot_token initial (results.map Except.ok)).initial_token = initial.token := by
  exact ⟨refresh_loop_cycles_closed (initial.refresh_in - 60) initial.token results, rfl⟩

/-! ## Claim C8 -/

/-- C8: a failed exchange ends the refresh loop with that error surfaced
as the loop's outcome (not swallowed), and the stored session token at
that point is still the last successfully obtained token (the initial
token when no refresh had succeeded yet): the store is written only
after a successful exchange. -/
theorem refresh_failure_surfaced_token_kept (i : Int) (stored e : String)
    (oks : List TokenData) (rest : List (Except String TokenData)) :
    (refresh_loop i stored (oks.map Except.ok ++ Except.error e :: rest)).outcome =
      Except.error e ∧
    (refresh_loop i stored (oks.map Except.ok ++ Except.error e :: rest)).stored =
      (oks.map TokenData.token).getLastD stored := by
  induction oks generalizing stored with
  | nil => exact ⟨rfl, rfl⟩
  | cons td tds ih =>
    have h := ih td.token
    refine ⟨?_, ?_⟩
    · simpa [refresh_loop] using h.1
    · calc (refresh_loop i stored
            ((td :: tds).map Except.ok ++ Except.error e :: rest)).stored
          = (refresh_loop i td.token (tds.map Except.ok ++ Except.error e :: rest)).stored := by
            simp only [List.map_cons, List.cons_append, refresh_loop, List.append_eq]
        _ = (tds.map TokenData.token).getLastD td.token := h.2
        _ = ((td :: tds).map TokenData.token).getLastD stored := by
            rw [List.map_cons, List.getLastD_cons]

/-! ## Claim C6 -/

/-- C6 counterexample: a cached descriptor for the requested model whose
limits object lacks `max_output_tokens` makes the default-ceiling block
raise a KeyError instead of proceeding with the ceiling unset. -/
theorem max_tokens_missing_limit_raises :
    set_default_max_tokens none "x" (some [⟨"x", none⟩]) = Except.error () ∧
    set_default_max_tokens none "x" (some [⟨"x", none⟩]) ≠ Except.ok none := by
  refine ⟨rfl, ?_⟩
  intro h
  exact Except.noConfusion h

/-- C6 (amended): with no explicit ceiling, a model id that matches no
cached descriptor leaves the ceiling unset without raising, and a
matching descriptor with a `max_output_tokens` limit sets the ceiling to
it; but a matching descriptor lacking the limit raises a KeyError rather
than leaving the ceiling unset.  A consumer-supplied ceiling is always
kept. -/
theorem max_tokens_default_behaviour (pm : String) (data : List ModelEntry)
    (entry : ModelEntry) :
    (data.find? (fun m => m.id == pm) = none →
      set_default_max_tokens none pm (some data) = Except.ok none) ∧
    (data.find? (fun m => m.id == pm) = some entry → entry.max_output_tokens = none →
      set_default_max_tokens none pm (some data) = Except.error ()) ∧
    (data.find? (fun m => m.id == pm) = some entry → ∀ v, entry.max_output_tokens = some v →
      set_default_max_tokens none pm (some data) = Except.ok (some v)) ∧
    (∀ v : Int, set_default_max_tokens (some v) pm (some data) = Except.ok (some v)) := by
  refine ⟨?_, ?_, ?_, ?_⟩
  · intro h
    simp [set_default_max_tokens, h]
  · intro h hm
    simp [set_default_max_tokens, h, hm]
  · intro h v hv
    simp [set_default_max_tokens, h, hv]
  · intro v
    rfl

/-- C6 witness: the amended theorem applied concretely — an unmatched
model id keeps the ceiling unset, a matched descriptor with limit 100
sets it, and a supplied ceiling of 5 is kept. -/
theorem max_tokens_default_behaviour_witness :
    set_default_max_tokens none "y" (some [⟨"x", some 100⟩]) = Except.ok none ∧
    set_default_max_tokens none "x" (some [⟨"x", some 100⟩]) = Except.ok (some 100) ∧
    set_default_max_tokens (some 5) "x" (some [⟨"x", none⟩]) = Except.ok (some 5) := by
  have h1 := max_tokens_default_behaviour "y" [⟨"x", some 100⟩] ⟨"x", some 100⟩
  have h2 := max_tokens_default_behaviour "x" [⟨"x", some 100⟩] ⟨"x", some 100⟩
  have h3 := max_tokens_default_behaviour "x" [⟨"x", none⟩] ⟨"x", none⟩
  exact ⟨h1.1 (by decide), h2.2.2.1 (by decide) 100 rfl, h3.2.2.2 5⟩

/-! ## Streaming lemmas -/

/-- A list is a prefix of itself followed by anything. -/
theorem isPrefixOf_append_self (p s : List Char) : p.isPrefixOf (p ++ s) = true := by
  induction p with
  | nil => simp [List.isPrefixOf]
  | cons a t ih => simp [List.isPrefixOf, ih]

/-- Dropping the 6 characters of the `"data: "` tag from a tagged line
recovers the payload. -/
theorem drop6_tag_append (s : Line) : (sse_data_tag ++ s).drop 6 = s := by
  have h : sse_data_tag.length = 6 := rfl
  rw [← h, List.drop_left]

/-- The relay parser on a well-formed upstream stream: the tagged
encodings of `events`, then a tagged `[DONE]` line, then anything.
It yields exactly `events` in order and completes normally at the
sentinel, whatever follows and however the underlying iteration would
have ended. -/
theorem stream_response_on_events {J : Type} (parse : Line → Option J) (encode_up : J → Line)
    (events : List J) (trailing : List Line) (ending : UpstreamEnd)
    (hparse : ∀ e ∈ events, parse (encode_up e) = some e)
    (hdone : ∀ e ∈ events, encode_up e ≠ done_sentinel) :
    stream_response parse
        (events.map (fun e => sse_data_tag ++ encode_up e) ++
          (sse_data_tag ++ done_sentinel) :: trailing) ending =
      (events, false) := by
  induction events with
  | nil =>
    simp [stream_response, isPrefixOf_append_self, drop6_tag_append]
  | cons e es ih =>
    have hp := hparse e (by simp)
    have hd := hdone e (by simp)
    have ihr := ih (fun x hx => hparse x (by simp [hx])) (fun x hx => hdone x (by simp [hx]))
    simp [stream_response, isPrefixOf_append_self, drop6_tag_append, hd, hp, ihr]

/-- The relay parser raises when the upstream iteration raises and no
line carried the `[DONE]` sentinel. -/
theorem stream_response_io_error_raises {J : Type} (parse : Line → Option J) :
    ∀ lines : List Line,
      (∀ l ∈ lines, sse_data_tag.isPrefixOf l = true → l.drop 6 ≠ done_sentinel) →
      (stream_response parse lines UpstreamEnd.io_error).2 = true := by
  intro lines
  induction lines with
  | nil => intro _; rfl
  | cons l rest ih =>
    intro h
    have hrest := ih (fun x hx => h x (by simp [hx]))
    by_cases hp : sse_data_tag.isPrefixOf l = true
    · have hd : l.drop 6 ≠ done_sentinel := h l (by simp) hp
      cases hparse : parse (l.drop 6) with
      | none => simpa [stream_response, hp, hd, hparse] using hrest
      | some j => simpa [stream_response, hp, hd, hparse] using hrest
    · simpa [stream_response, hp] using hrest

/-! ## Claim C3 -/

/-- C3: relaying an upstream stream of N data events followed by the
`[DONE]` sentinel yields exactly the N consumer data events, one per
upstream event in arrival order, followed by exactly one terminal
marker with nothing after it. -/
theorem stream_relay_events {J : Type} (parse : Line → Option J)
    (encode_up encode_down : J → Line) (events : List J) (ending : UpstreamEnd)
    (hparse : ∀ e ∈ events, parse (encode_up e) = some e)
    (hdone : ∀ e ∈ events, encode_up e ≠ done_sentinel) :
    handle_completion_stream parse encode_down
        (events.map (fun e => sse_data_tag ++ encode_up e) ++
          [sse_data_tag ++ done_sentinel]) ending =
      (events.map (fun j => sse_data_tag ++ encode_down j ++ frame_sep) ++
        [sse_data_tag ++ done_sentinel ++ frame_sep], false) := by
  unfold handle_completion_stream
  rw [stream_response_on_events parse encode_up events [] ending hparse hdone]
  rfl

/-- C3 witness: three upstream data events `a`, `b`, `c` followed by the
sentinel relay to exactly three consumer frames and one terminal frame. -/
theorem stream_relay_events_witness :
    handle_completion_stream (fun l : Line => some l) (fun l => l)
        (["a".data, "b".data, "c".data].map (fun e => sse_data_tag ++ e) ++
          [sse_data_tag ++ done_sentinel]) UpstreamEnd.eof =
      (["data: a\n\n".data, "data: b\n\n".data, "data: c\n\n".data,
        "data: [DONE]\n\n".data], false) := by
  have h := stream_relay_events (fun l : Line => some l) (fun l => l) (fun l => l)
    ["a".data, "b".data, "c".data] UpstreamEnd.eof
    (fun e _ => rfl) (by decide)
  rw [h]
  decide

/-! ## Claim C7 -/

/-- C7 counterexample: an upstream stream that ends cleanly (iterator
exhausted without raising) before any `[DONE]` sentinel still makes the
relay emit the terminal marker and complete normally instead of closing
without it and surfacing a failure. -/
theorem stream_clean_end_emits_terminal :
    handle_completion_stream (fun l : Line => some l) (fun l => l)
        ["data: x".data] UpstreamEnd.eof =
      (["data: x\n\n".data, "data: [DONE]\n\n".data], false) ∧
    (sse_data_tag ++ done_sentinel ++ frame_sep) ∈
      (handle_completion_stream (fun l : Line => some l) (fun l => l)
        ["data: x".data] UpstreamEnd.eof).1 := by
  refine ⟨rfl, ?_⟩
  decide

/-- C7 (amended): when the upstream iteration raises (connection
interrupted) before any `[DONE]` sentinel line was seen, the relay
emits only the data frames, no terminal marker, and the failure
propagates to the transport; but a clean upstream end without the
sentinel still produces the terminal marker. -/
theorem stream_interrupted_no_terminal {J : Type} (parse : Line → Option J)
    (encode : J → Line) (lines : List Line)
    (hnodone : ∀ l ∈ lines, sse_data_tag.isPrefixOf l = true → l.drop 6 ≠ done_sentinel) :
    handle_completion_stream parse encode lines UpstreamEnd.io_error =
      ((stream_response parse lines UpstreamEnd.io_error).1.map
          (fun j => sse_data_tag ++ encode j ++ frame_sep),
        true) := by
  have hr := stream_response_io_error_raises parse lines hnodone
  unfold handle_completion_stream
  simp [hr]

/-- C7 witness: the amended theorem applied to an interrupted stream
holding one data line — one data frame, no terminal marker, failure
surfaced. -/
theorem stream_interrupted_no_terminal_witness :
    handle_completion_stream (fun l : Line => some l) (fun l => l)
        ["data: x".data] UpstreamEnd.io_error = (["data: x\n\n".data], true) := by
  have h := stream_interrupted_no_terminal (fun l : Line => some l) (fun l => l)
    ["data: x".data] (by decide)
  rw [h]
  decide

/-! ## Claim C9 -/

/-- C9 counterexample: on the Anthropic streaming path a chunk without a
`choices` key is passed through verbatim — its usage keys keep their
OpenAI names, no stop-reason or usage remapping happens — and a
delta-style chunk whose first choice lacks a `message` key makes the
per-chunk conversion raise, aborting the stream.  Chunks are therefore
not reshaped like miniature full responses. -/
theorem messages_stream_not_reshaped :
    convert_openai_to_anthropic ⟨some "c1", some "gpt-4", none, some ⟨some 5, some 7⟩⟩ =
      some (ConvResult.passthrough ⟨some "c1", some "gpt-4", none, some ⟨some 5, some 7⟩⟩) ∧
    conv_input_tokens (convert_openai_to_anthropic
      ⟨some "c1", some "gpt-4", none, some ⟨some 5, some 7⟩⟩) = none ∧
    convert_openai_to_anthropic ⟨some "c2", some "gpt-4", some [⟨none, none⟩], none⟩ =
      none ∧
    handle_messages_stream (fun _ => "{}".data)
      [⟨some "c2", some "gpt-4", some [⟨none, none⟩], none⟩] false = ([], true) := by
  decide

/-- The Anthropic streaming relay on chunks that all convert: one frame
per chunk through `convert_openai_to_anthropic`, in order, followed by
the terminal marker. -/
theorem handle_messages_stream_closed (encode : ConvResult → Line) :
    ∀ (chunks : List OpenAIResponse) (results : List ConvResult),
      chunks.map convert_openai_to_anthropic = results.map some →
      handle_messages_stream encode chunks false =
        (results.map (fun cr => sse_data_tag ++ encode cr ++ frame_sep) ++
          [sse_data_tag ++ done_sentinel ++ frame_sep], false) := by
  intro chunks
  induction chunks with
  | nil =>
    intro results h
    cases results with
    | nil => rfl
    | cons a as => simp at h
  | cons c cs ih =>
    intro results h
    cases results with
    | nil => simp at h
    | cons cr rs =>
      simp only [List.map_cons, List.cons.injEq] at h
      obtain ⟨h1, h2⟩ := h
      simp [handle_messages_stream, h1, ih rs h2]

/-- C9 (amended): the Anthropic streaming relay runs every chunk
through the same `convert_openai_to_anthropic` used by the
non-streaming path — so when every chunk converts, the consumer stream
is one converted frame per chunk in order plus the terminal marker —
but this conversion reshapes only a chunk carrying a `choices` key with
a `message`; a chunk without a `choices` key is re-emitted unchanged,
with no stop-reason or usage remapping. -/
theorem messages_stream_per_chunk (encode : ConvResult → Line)
    (chunks : List OpenAIResponse) (results : List ConvResult)
    (hconv : chunks.map convert_openai_to_anthropic = results.map some) :
    handle_messages_stream encode chunks false =
      (results.map (fun cr => sse_data_tag ++ encode cr ++ frame_sep) ++
        [sse_data_tag ++ done_sentinel ++ frame_sep], false) ∧
    (∀ c : OpenAIResponse, c.choices = none →
      convert_openai_to_anthropic c = some (ConvResult.passthrough c)) := by
  refine ⟨handle_messages_stream_closed encode chunks results hconv, ?_⟩
  intro c hc
  simp [convert_openai_to_anthropic, hc]

/-- C9 witness: the amended theorem applied to a one-chunk stream whose
chunk lacks a `choices` key — it is relayed as a passthrough frame
followed by the terminal marker. -/
theorem messages_stream_per_chunk_witness :
    handle_messages_stream (fun _ => "{}".data) [⟨some "c1", none, none, none⟩] false =
      ([sse_data_tag ++ "{}".data ++ frame_sep,
        sse_data_tag ++ done_sentinel ++ frame_sep], false) ∧
    convert_openai_to_anthropic ⟨some "c1", none, none, none⟩ =
      some (ConvResult.passthrough ⟨some "c1", none, none, none⟩) := by
  have h := messages_stream_per_chunk (fun _ => "{}".data)
    [⟨some "c1", none, none, none⟩]
    [ConvResult.passthrough ⟨some "c1", none, none, none⟩] (by decide)
  exact ⟨by rw [h.1]; decide, h.2 ⟨some "c1", none, none, none⟩ rfl⟩
